import Mathlib

/-!
# The Windows runner entry point of code_combiner

A shallow embedding of `wWinMain` (windows/runner/main.cpp).  The function
has no data of its own: it is a fixed sequence of calls into the operating
system, the Flutter embedder and the bitsdojo plugin, with two branches (the
console step and the window-creation check) and one loop (the message pump).

The embedding therefore makes the outside world explicit:

* `World` holds the value every external call returns (the message pump's
  retrievals are indexed by their position);
* `Call` is one external call together with the arguments the source passes;
* `wWinMain` returns a `Run`: the calls made, in order, and the exit code.

The message loop may run for ever, so it is bounded by a number of
retrievals (`fuel`); a run whose loop has not ended within that bound has
the exit code `none` and the calls made so far.

Only the calls written in the body of `wWinMain` are recorded; the
destructors the compiler runs when the scope is left are not.
-/

set_option linter.unusedVariables false

namespace CodeCombiner

/-- The constants `wWinMain` takes from headers that are not part of the
source tree (bitsdojo_window_plugin.h, windows.h, stdlib.h).  They are
parameters of the embedding. -/
structure Consts where
  BDW_CUSTOM_FRAME : Nat
  BDW_HIDE_ON_STARTUP : Nat
  ATTACH_PARENT_PROCESS : Nat
  COINIT_APARTMENTTHREADED : Nat
  EXIT_SUCCESS : Int
  EXIT_FAILURE : Int

/-- The record `Win32Window::Point`, built in the source by `origin(10, 10)`. -/
structure Point where
  x : Nat
  y : Nat
  deriving DecidableEq, Repr

/-- The record `Win32Window::Size`, built in the source by `size(1280, 720)`. -/
structure Size where
  width : Nat
  height : Nat
  deriving DecidableEq, Repr

/-- The message record `::MSG` that `GetMessage` fills in. -/
structure MSG where
  hwnd : Nat
  message : Nat
  wParam : Nat
  lParam : Int
  time : Nat
  pt : Int × Int
  deriving DecidableEq, Repr

/-- The state of a `flutter::DartProject` as far as `wWinMain` sets it: the
assets path given to the constructor and the entrypoint arguments. -/
structure DartProject where
  path : String
  dart_entrypoint_arguments : List String
  deriving DecidableEq, Repr

/-- One external call of `wWinMain`, with the arguments the source passes.
A null pointer argument is `none`. -/
inductive Call where
  | bitsdojo_window_configure (flags : Nat)
  | AttachConsole (dwProcessId : Nat)
  | IsDebuggerPresent
  | CreateAndAttachConsole
  | CoInitializeEx (pvReserved : Option Nat) (dwCoInit : Nat)
  | DartProject (path : String)
  | GetCommandLineArguments
  | set_dart_entrypoint_arguments (arguments : List String)
  | FlutterWindow (project : CodeCombiner.DartProject)
  | Create (title : String) (origin : Point) (size : Size)
  | SetQuitOnClose (quit_on_close : Bool)
  | GetMessage (hWnd : Option Nat) (wMsgFilterMin : Nat) (wMsgFilterMax : Nat)
  | TranslateMessage (msg : MSG)
  | DispatchMessage (msg : MSG)
  | CoUninitialize
  deriving DecidableEq, Repr

/-- What the external calls return.  `GetMessage i` is the result of the
retrieval number `i` (from 0) of the message loop: the `BOOL` returned and
the content of `msg` after the call.  `TranslateMessage i` and
`DispatchMessage i` are the values returned for that message.  The values
that the source discards are fields all the same, so that a theorem can
range over them. -/
structure World where
  bitsdojo_window_configure : Int
  AttachConsole : Int
  IsDebuggerPresent : Int
  CreateAndAttachConsole : Int
  CoInitializeEx : Int
  GetCommandLineArguments : List String
  Create : Bool
  GetMessage : Nat → Int × MSG
  TranslateMessage : Nat → Int
  DispatchMessage : Nat → Int

/-- The outcome of a run: the external calls in the order they were made and
the value returned; `none` when the message loop is still running. -/
structure Run where
  calls : List Call
  exit : Option Int

/-- The loop `while (::GetMessage(&msg, nullptr, 0, 0)) { ::TranslateMessage(&msg);
::DispatchMessage(&msg); }` from retrieval number `i` on, for at most `fuel`
retrievals.  The result is the calls made and whether the loop has ended. -/
def messageLoop (w : World) : Nat → Nat → List Call × Bool
  | 0, _ => ([], false)
  | fuel + 1, i =>
    let got := w.GetMessage i
    if got.1 ≠ 0 then
      let translated := w.TranslateMessage i
      let dispatched := w.DispatchMessage i
      let rest := messageLoop w fuel (i + 1)
      (Call.GetMessage none 0 0 :: Call.TranslateMessage got.2 ::
        Call.DispatchMessage got.2 :: rest.1, rest.2)
    else
      ([Call.GetMessage none 0 0], true)

/-- The entry point `wWinMain(instance, prev, command_line, show_command)`.
The statements follow the source one by one; `t` is the list of the calls
made so far. -/
def wWinMain (k : Consts) (inst : Nat) (prev : Nat) (command_line : String)
    (show_command : Int) (w : World) (fuel : Nat) : Run :=
  -- auto bdw = bitsdojo_window_configure(BDW_CUSTOM_FRAME | BDW_HIDE_ON_STARTUP);
  let t : List Call := [Call.bitsdojo_window_configure (k.BDW_CUSTOM_FRAME ||| k.BDW_HIDE_ON_STARTUP)]
  let bdw := w.bitsdojo_window_configure
  -- (void)bdw;
  -- if (!::AttachConsole(ATTACH_PARENT_PROCESS) && ::IsDebuggerPresent()) { CreateAndAttachConsole(); }
  let t := t ++ [Call.AttachConsole k.ATTACH_PARENT_PROCESS]
  let t :=
    if w.AttachConsole = 0 then
      let t := t ++ [Call.IsDebuggerPresent]
      if w.IsDebuggerPresent ≠ 0 then t ++ [Call.CreateAndAttachConsole] else t
    else t
  -- ::CoInitializeEx(nullptr, COINIT_APARTMENTTHREADED);
  let t := t ++ [Call.CoInitializeEx none k.COINIT_APARTMENTTHREADED]
  -- flutter::DartProject project(L"data");
  let project : DartProject := { path := "data", dart_entrypoint_arguments := [] }
  let t := t ++ [Call.DartProject "data"]
  -- std::vector<std::string> command_line_arguments = GetCommandLineArguments();
  let command_line_arguments := w.GetCommandLineArguments
  let t := t ++ [Call.GetCommandLineArguments]
  -- project.set_dart_entrypoint_arguments(std::move(command_line_arguments));
  let project : DartProject := { project with dart_entrypoint_arguments := command_line_arguments }
  let t := t ++ [Call.set_dart_entrypoint_arguments command_line_arguments]
  -- FlutterWindow window(project);
  let t := t ++ [Call.FlutterWindow project]
  -- Win32Window::Point origin(10, 10);  Win32Window::Size size(1280, 720);
  let origin : Point := { x := 10, y := 10 }
  let size : Size := { width := 1280, height := 720 }
  -- if (!window.Create(L"code_combiner", origin, size)) { return EXIT_FAILURE; }
  let t := t ++ [Call.Create "code_combiner" origin size]
  if !w.Create then
    { calls := t, exit := some k.EXIT_FAILURE }
  else
    -- window.SetQuitOnClose(true);
    let t := t ++ [Call.SetQuitOnClose true]
    -- ::MSG msg;  while (::GetMessage(&msg, nullptr, 0, 0)) { ... }
    let loop := messageLoop w fuel 0
    if loop.2 then
      -- ::CoUninitialize();  return EXIT_SUCCESS;
      { calls := t ++ loop.1 ++ [Call.CoUninitialize], exit := some k.EXIT_SUCCESS }
    else
      { calls := t ++ loop.1, exit := none }

/-- The calls of `n` full rounds of the message loop, for the retrievals
number `i`, `i + 1`, ..., `i + n - 1`: each message is retrieved, translated
and dispatched, in that order. -/
def pumped (w : World) (i n : Nat) : List Call :=
  (List.range n).flatMap fun j =>
    [Call.GetMessage none 0 0, Call.TranslateMessage (w.GetMessage (i + j)).2,
      Call.DispatchMessage (w.GetMessage (i + j)).2]

/-- The retrieval number `n` is the first one whose result is zero. -/
def FirstQuit (w : World) (n : Nat) : Prop :=
  (w.GetMessage n).1 = 0 ∧ ∀ j, j < n → (w.GetMessage j).1 ≠ 0

/-- Recognises a call of the message loop. -/
def Call.isPump : Call → Bool
  | .GetMessage _ _ _ => true
  | .TranslateMessage _ => true
  | .DispatchMessage _ => true
  | _ => false

/-- Recognises a call of `GetMessage`. -/
def Call.isGetMessage : Call → Bool
  | .GetMessage _ _ _ => true
  | _ => false

/-- Recognises a call of `TranslateMessage`. -/
def Call.isTranslateMessage : Call → Bool
  | .TranslateMessage _ => true
  | _ => false

/-- Recognises a call of `DispatchMessage`. -/
def Call.isDispatchMessage : Call → Bool
  | .DispatchMessage _ => true
  | _ => false

/-- Recognises a call of `bitsdojo_window_configure`. -/
def Call.isConfigure : Call → Bool
  | .bitsdojo_window_configure _ => true
  | _ => false

/-- Recognises a call of `CoInitializeEx`. -/
def Call.isCoInitializeEx : Call → Bool
  | .CoInitializeEx _ _ => true
  | _ => false

/-- Recognises a call of `CoUninitialize`. -/
def Call.isCoUninitialize : Call → Bool
  | Call.CoUninitialize => true
  | _ => false

/-- Recognises a call of `window.Create`. -/
def Call.isCreate : Call → Bool
  | .Create _ _ _ => true
  | _ => false

/-- Recognises a call of `window.SetQuitOnClose`. -/
def Call.isSetQuitOnClose : Call → Bool
  | .SetQuitOnClose _ => true
  | _ => false

/-- Recognises the construction of the `FlutterWindow`. -/
def Call.isFlutterWindow : Call → Bool
  | .FlutterWindow _ => true
  | _ => false

/-- Recognises a call of `project.set_dart_entrypoint_arguments`. -/
def Call.isSetArguments : Call → Bool
  | .set_dart_entrypoint_arguments _ => true
  | _ => false

/-- Recognises a call of `GetCommandLineArguments`. -/
def Call.isGetArguments : Call → Bool
  | .GetCommandLineArguments => true
  | _ => false

/-- Recognises a call of `AttachConsole`. -/
def Call.isAttachConsole : Call → Bool
  | .AttachConsole _ => true
  | _ => false

/-- Values for the header constants, as the Windows SDK, the C runtime and
the bitsdojo plugin define them. -/
def sdkConsts : Consts where
  BDW_CUSTOM_FRAME := 0x1
  BDW_HIDE_ON_STARTUP := 0x2
  ATTACH_PARENT_PROCESS := 0xFFFFFFFF
  COINIT_APARTMENTTHREADED := 0x2
  EXIT_SUCCESS := 0
  EXIT_FAILURE := 1

/-- A key-down message (WM_KEYDOWN is 0x0100) of a window, used in examples. -/
def keyDown (vk : Nat) : MSG :=
  { hwnd := 7, message := 0x0100, wParam := vk, lParam := 1, time := 0, pt := (0, 0) }

/-- The quit message (WM_QUIT is 0x0012). -/
def quitMsg : MSG :=
  { hwnd := 0, message := 0x0012, wParam := 0, lParam := 0, time := 0, pt := (0, 0) }

/-- A run started from a terminal (the parent console is attached): the
window is created, two key messages arrive, then the quit message. -/
def terminalWorld : World where
  bitsdojo_window_configure := 1
  AttachConsole := 1
  IsDebuggerPresent := 0
  CreateAndAttachConsole := 0
  CoInitializeEx := 0
  GetCommandLineArguments := ["--verbose", "a.txt"]
  Create := true
  GetMessage := fun i => if i = 0 then (1, keyDown 65) else if i = 1 then (1, keyDown 66) else (0, quitMsg)
  TranslateMessage := fun _ => 1
  DispatchMessage := fun _ => 0

/-- A run under a debugger without a parent console, in which every
best-effort call reports a failure; the messages are those of
`terminalWorld`. -/
def debuggerWorld : World where
  bitsdojo_window_configure := 0
  AttachConsole := 0
  IsDebuggerPresent := 1
  CreateAndAttachConsole := -1
  CoInitializeEx := -2147467259
  GetCommandLineArguments := ["--verbose", "a.txt"]
  Create := true
  GetMessage := terminalWorld.GetMessage
  TranslateMessage := fun _ => 0
  DispatchMessage := fun _ => 5

/-- A run in which the window cannot be created. -/
def noWindowWorld : World :=
  { terminalWorld with Create := false }

/-- A run whose first retrieval fails (`GetMessage` returns -1 and leaves
`msg` as it was) and whose second retrieval is the quit message. -/
def errorWorld : World :=
  { terminalWorld with
    GetMessage := fun i => if i = 0 then (-1, keyDown 0) else (0, quitMsg) }

/-! ## The message loop -/

theorem pumped_zero (w : World) (i : Nat) : pumped w i 0 = [] := by
  simp [pumped]

theorem pumped_succ (w : World) (i n : Nat) :
    pumped w i (n + 1) =
      Call.GetMessage none 0 0 :: Call.TranslateMessage (w.GetMessage i).2 ::
        Call.DispatchMessage (w.GetMessage i).2 :: pumped w (i + 1) n := by
  simp [pumped, List.range_succ_eq_map, List.flatMap_map, Function.comp_def,
    Nat.add_assoc, Nat.add_comm 1]

theorem messageLoop_ends (w : World) :
    ∀ (n fuel i : Nat), (w.GetMessage (i + n)).1 = 0 →
      (∀ j, j < n → (w.GetMessage (i + j)).1 ≠ 0) → n < fuel →
      messageLoop w fuel i = (pumped w i n ++ [Call.GetMessage none 0 0], true) := by
  intro n
  induction n with
  | zero =>
    intro fuel i hq _ hfuel
    obtain ⟨f, rfl⟩ : ∃ f, fuel = f + 1 := ⟨fuel - 1, by omega⟩
    simp only [Nat.add_zero] at hq
    simp [messageLoop, hq, pumped_zero]
  | succ n ih =>
    intro fuel i hq hfirst hfuel
    obtain ⟨f, rfl⟩ : ∃ f, fuel = f + 1 := ⟨fuel - 1, by omega⟩
    have h0 : (w.GetMessage i).1 ≠ 0 := by simpa using hfirst 0 (by omega)
    have hrec := ih f (i + 1) (by rw [← hq]; congr 2; omega)
      (fun j hj => by
        have := hfirst (j + 1) (by omega)
        rwa [show i + (j + 1) = i + 1 + j by omega] at this)
      (by omega)
    simp [messageLoop, h0, hrec, pumped_succ]

theorem messageLoop_running (w : World) :
    ∀ (fuel i : Nat), (∀ j, j < fuel → (w.GetMessage (i + j)).1 ≠ 0) →
      messageLoop w fuel i = (pumped w i fuel, false) := by
  intro fuel
  induction fuel with
  | zero => intro i _; simp [messageLoop, pumped_zero]
  | succ f ih =>
    intro i hall
    have h0 : (w.GetMessage i).1 ≠ 0 := by simpa using hall 0 (by omega)
    have hrec := ih (i + 1) (fun j hj => by
      have := hall (j + 1) (by omega)
      rwa [show i + (j + 1) = i + 1 + j by omega] at this)
    simp [messageLoop, h0, hrec, pumped_succ]

theorem exists_firstQuit (w : World) (fuel : Nat)
    (h : ∃ j, j < fuel ∧ (w.GetMessage j).1 = 0) :
    ∃ n, n < fuel ∧ FirstQuit w n := by
  classical
  have h2 : ∃ j, (w.GetMessage j).1 = 0 := by
    obtain ⟨j, _, hj⟩ := h
    exact ⟨j, hj⟩
  refine ⟨Nat.find h2, ?_, Nat.find_spec h2, fun j hj => Nat.find_min h2 hj⟩
  obtain ⟨j, hj, hz⟩ := h
  exact lt_of_le_of_lt (Nat.find_min' h2 hz) hj

theorem messageLoop_done_iff (w : World) (fuel : Nat) :
    (messageLoop w fuel 0).2 = true ↔ ∃ j, j < fuel ∧ (w.GetMessage j).1 = 0 := by
  constructor
  · intro h
    by_contra hne
    have hall : ∀ j, j < fuel → (w.GetMessage (0 + j)).1 ≠ 0 := by
      intro j hj hz
      exact hne ⟨j, hj, by simpa using hz⟩
    rw [messageLoop_running w fuel 0 hall] at h
    simp at h
  · intro h
    obtain ⟨n, hn, hq, hfirst⟩ := exists_firstQuit w fuel h
    rw [messageLoop_ends w n fuel 0 (by simpa using hq)
      (fun j hj => by simpa using hfirst j hj) hn]

theorem messageLoop_isPump (w : World) :
    ∀ (fuel i : Nat) (c : Call), c ∈ (messageLoop w fuel i).1 → c.isPump = true := by
  intro fuel
  induction fuel with
  | zero => intro i c hc; simp [messageLoop] at hc
  | succ f ih =>
    intro i c hc
    simp only [messageLoop] at hc
    split at hc
    · simp only [List.mem_cons] at hc
      rcases hc with rfl | rfl | rfl | hc
      · rfl
      · rfl
      · rfl
      · exact ih (i + 1) c hc
    · simp only [List.mem_singleton] at hc
      subst hc
      rfl

theorem messageLoop_filter (w : World) (fuel i : Nat) (p : Call → Bool)
    (hp : ∀ c, c.isPump = true → p c = false) :
    (messageLoop w fuel i).1.filter p = [] := by
  rw [List.filter_eq_nil_iff]
  intro c hc
  simp [hp c (messageLoop_isPump w fuel i c hc)]

theorem messageLoop_congr (w1 w2 : World) (h : ∀ i, w1.GetMessage i = w2.GetMessage i) :
    ∀ (fuel i : Nat), messageLoop w1 fuel i = messageLoop w2 fuel i := by
  intro fuel
  induction fuel with
  | zero => intro i; rfl
  | succ f ih =>
    intro i
    simp only [messageLoop, h i, ih (i + 1)]

theorem messageLoop_not_mem (w : World) (fuel i : Nat) (c : Call) (hc : c.isPump = false) :
    c ∉ (messageLoop w fuel i).1 := by
  intro hmem
  rw [messageLoop_isPump w fuel i c hmem] at hc
  exact Bool.noConfusion hc

theorem messageLoop_shape (w : World) (fuel : Nat) :
    (∀ n, FirstQuit w n → n < fuel →
      messageLoop w fuel 0 = (pumped w 0 n ++ [Call.GetMessage none 0 0], true) ∧
      (messageLoop w fuel 0).1.countP Call.isGetMessage = n + 1 ∧
      (messageLoop w fuel 0).1.countP Call.isTranslateMessage = n ∧
      (messageLoop w fuel 0).1.countP Call.isDispatchMessage = n) ∧
    ((∀ j, j < fuel → (w.GetMessage j).1 ≠ 0) →
      messageLoop w fuel 0 = (pumped w 0 fuel, false)) := by
  have hcount : ∀ m i, (pumped w i m).countP Call.isGetMessage = m ∧
      (pumped w i m).countP Call.isTranslateMessage = m ∧
      (pumped w i m).countP Call.isDispatchMessage = m := by
    intro m
    induction m with
    | zero => intro i; simp [pumped_zero]
    | succ m ih =>
      intro i
      obtain ⟨h1, h2, h3⟩ := ih (i + 1)
      simp [pumped_succ, List.countP_cons, Call.isGetMessage, Call.isTranslateMessage,
        Call.isDispatchMessage, h1, h2, h3]
  refine ⟨?_, ?_⟩
  · intro n hq hfuel
    have heq := messageLoop_ends w n fuel 0 (by simpa using hq.1)
      (fun j hj => by simpa using hq.2 j hj) hfuel
    obtain ⟨h1, h2, h3⟩ := hcount n 0
    refine ⟨heq, ?_, ?_, ?_⟩ <;>
      simp [heq, List.countP_cons, Call.isGetMessage, Call.isTranslateMessage,
        Call.isDispatchMessage, h1, h2, h3]
  · intro hall
    exact messageLoop_running w fuel 0 (fun j hj => by simpa using hall j hj)

/-! ## The entry point -/

/-- C3: whatever the entry-point parameters, the command-line arguments and
the results of the external calls, and however long the run, `window.Create`
is called exactly once, with the title "code_combiner", the origin (10, 10)
and the size (1280, 720). -/
theorem wWinMain_creates_window_once (k : Consts) (inst prev : Nat) (command_line : String)
    (show_command : Int) (w : World) (fuel : Nat) :
    (wWinMain k inst prev command_line show_command w fuel).calls.filter Call.isCreate =
      [Call.Create "code_combiner" { x := 10, y := 10 } { width := 1280, height := 720 }] := by
  have hl := messageLoop_filter w fuel 0 Call.isCreate
    (by intro c; cases c <;> simp [Call.isPump, Call.isCreate])
  unfold wWinMain
  by_cases ha : w.AttachConsole = 0 <;> by_cases hd : w.IsDebuggerPresent = 0 <;>
    cases hc : w.Create <;> cases hb : (messageLoop w fuel 0).2 <;>
    simp [ha, hd, hc, hb, hl, List.filter, Call.isCreate]

/-- C1: the exit code.  When `window.Create` returns false the run returns
`EXIT_FAILURE`; when it returns true the run returns `EXIT_SUCCESS` as soon
as a retrieval of the message loop has the result zero, and returns nothing
as long as every retrieval so far was non-zero.  Hence the value returned is
`EXIT_FAILURE` if and only if `window.Create` returned false (the two codes
being different). -/
theorem wWinMain_exit_code (k : Consts) (inst prev : Nat) (command_line : String)
    (show_command : Int) (w : World) (fuel : Nat) (hk : k.EXIT_FAILURE ≠ k.EXIT_SUCCESS) :
    (w.Create = false →
      (wWinMain k inst prev command_line show_command w fuel).exit = some k.EXIT_FAILURE) ∧
    (w.Create = true → (∃ j, j < fuel ∧ (w.GetMessage j).1 = 0) →
      (wWinMain k inst prev command_line show_command w fuel).exit = some k.EXIT_SUCCESS) ∧
    (w.Create = true → (∀ j, j < fuel → (w.GetMessage j).1 ≠ 0) →
      (wWinMain k inst prev command_line show_command w fuel).exit = none) ∧
    (∀ c, (wWinMain k inst prev command_line show_command w fuel).exit = some c →
      (c = k.EXIT_FAILURE ↔ w.Create = false)) := by
  have hdone := messageLoop_done_iff w fuel
  refine ⟨?_, ?_, ?_, ?_⟩
  · intro hc
    simp [wWinMain, hc]
  · intro hc hex
    simp [wWinMain, hc, hdone.mpr hex]
  · intro hc hall
    have hb : (messageLoop w fuel 0).2 = false := by
      rw [messageLoop_running w fuel 0 (fun j hj => by simpa using hall j hj)]
    simp [wWinMain, hc, hb]
  · intro c hexit
    cases hc : w.Create <;> cases hb : (messageLoop w fuel 0).2 <;>
      simp [wWinMain, hc, hb] at hexit
    · simp [← hexit]
    · simp [← hexit]
    · simpa [← hexit] using hk.symm

/-- C1 at concrete runs: a run from a terminal whose third retrieval is the
quit message returns 0, and a run whose window cannot be created returns 1. -/
theorem wWinMain_exit_code_witness :
    sdkConsts.EXIT_FAILURE ≠ sdkConsts.EXIT_SUCCESS ∧
    (wWinMain sdkConsts 0 0 "" 1 terminalWorld 5).exit = some 0 ∧
    (wWinMain sdkConsts 0 0 "" 1 terminalWorld 2).exit = none ∧
    (wWinMain sdkConsts 0 0 "" 1 noWindowWorld 5).exit = some 1 :=
  ⟨by decide,
    (wWinMain_exit_code sdkConsts 0 0 "" 1 terminalWorld 5 (by decide)).2.1 rfl
      ⟨2, by decide, by decide⟩,
    (wWinMain_exit_code sdkConsts 0 0 "" 1 terminalWorld 2 (by decide)).2.2.1 rfl
      (by decide),
    (wWinMain_exit_code sdkConsts 0 0 "" 1 noWindowWorld 5 (by decide)).1 rfl⟩

/-- C2: when `window.Create` returns false, the run returns `EXIT_FAILURE`
at once: the failed `Create` is the last external call, it is the only call
of `Create`, and no call of `SetQuitOnClose`, `GetMessage`,
`TranslateMessage` or `DispatchMessage` is made at all. -/
theorem wWinMain_create_failure_returns (k : Consts) (inst prev : Nat) (command_line : String)
    (show_command : Int) (w : World) (fuel : Nat) (hcreate : w.Create = false) :
    (wWinMain k inst prev command_line show_command w fuel).exit = some k.EXIT_FAILURE ∧
    (wWinMain k inst prev command_line show_command w fuel).calls.getLast? =
      some (Call.Create "code_combiner" { x := 10, y := 10 } { width := 1280, height := 720 }) ∧
    (wWinMain k inst prev command_line show_command w fuel).calls.countP Call.isCreate = 1 ∧
    (∀ c, c ∈ (wWinMain k inst prev command_line show_command w fuel).calls →
      c.isSetQuitOnClose = false ∧ c.isGetMessage = false ∧
      c.isTranslateMessage = false ∧ c.isDispatchMessage = false) := by
  unfold wWinMain
  by_cases ha : w.AttachConsole = 0 <;> by_cases hd : w.IsDebuggerPresent = 0 <;>
    simp [ha, hd, hcreate, List.countP_cons, Call.isCreate, Call.isSetQuitOnClose,
      Call.isGetMessage, Call.isTranslateMessage, Call.isDispatchMessage]

/-- C2 at a concrete run whose window cannot be created. -/
theorem wWinMain_create_failure_returns_witness :
    noWindowWorld.Create = false ∧
    (wWinMain sdkConsts 0 0 "" 1 noWindowWorld 5).exit = some 1 ∧
    (wWinMain sdkConsts 0 0 "" 1 noWindowWorld 5).calls.getLast? =
      some (Call.Create "code_combiner" { x := 10, y := 10 } { width := 1280, height := 720 }) :=
  ⟨rfl, (wWinMain_create_failure_returns sdkConsts 0 0 "" 1 noWindowWorld 5 rfl).1,
    (wWinMain_create_failure_returns sdkConsts 0 0 "" 1 noWindowWorld 5 rfl).2.1⟩

/-- C4: the argument list that `GetCommandLineArguments` returns is passed
on as it is.  Of the calls that touch the arguments there are exactly two,
`GetCommandLineArguments` and then `set_dart_entrypoint_arguments` with the
very list obtained (same length, same elements, same order), and the project
the window is built on holds that list. -/
theorem wWinMain_forwards_arguments (k : Consts) (inst prev : Nat) (command_line : String)
    (show_command : Int) (w : World) (fuel : Nat) :
    (wWinMain k inst prev command_line show_command w fuel).calls.filter
        (fun c => c.isGetArguments || c.isSetArguments) =
      [Call.GetCommandLineArguments,
        Call.set_dart_entrypoint_arguments w.GetCommandLineArguments] ∧
    (∀ a, Call.set_dart_entrypoint_arguments a ∈
        (wWinMain k inst prev command_line show_command w fuel).calls →
      a = w.GetCommandLineArguments) ∧
    (wWinMain k inst prev command_line show_command w fuel).calls.filter Call.isFlutterWindow =
      [Call.FlutterWindow
        { path := "data", dart_entrypoint_arguments := w.GetCommandLineArguments }] := by
  have hl := messageLoop_filter w fuel 0 (fun c => c.isGetArguments || c.isSetArguments)
    (by intro c; cases c <;> simp [Call.isPump, Call.isGetArguments, Call.isSetArguments])
  have hf := messageLoop_filter w fuel 0 Call.isFlutterWindow
    (by intro c; cases c <;> simp [Call.isPump, Call.isFlutterWindow])
  have hm : ∀ a, Call.set_dart_entrypoint_arguments a ∉ (messageLoop w fuel 0).1 :=
    fun a => messageLoop_not_mem w fuel 0 _ rfl
  unfold wWinMain
  by_cases ha : w.AttachConsole = 0 <;> by_cases hd : w.IsDebuggerPresent = 0 <;>
    cases hc : w.Create <;> cases hb : (messageLoop w fuel 0).2 <;>
    simp only [ha, hd, hc, hb, ↓reduceIte, List.filter_append, hl, hf, List.append_nil,
      ne_eq, not_true_eq_false, not_false_eq_true, Bool.not_true, Bool.not_false,
      Bool.false_eq_true, List.mem_append, hm, or_false] <;>
    simp [List.filter, Call.isGetArguments, Call.isSetArguments, Call.isFlutterWindow]

/-- C5: the message loop ends at the first retrieval whose result is zero
and at no earlier one.  If retrieval number `n` is the first with the result
zero, then a loop allowed more than `n` retrievals has ended after exactly
`n + 1` of them, and each of the `n` messages before was retrieved, passed to
`TranslateMessage` and then to `DispatchMessage`, once each and in retrieval
order; and as long as every retrieval has a non-zero result the loop has not
ended and has translated and dispatched every message retrieved. -/
theorem messageLoop_exits_at_first_quit (w : World) (fuel : Nat) :
    (∀ n, FirstQuit w n → n < fuel →
      messageLoop w fuel 0 = (pumped w 0 n ++ [Call.GetMessage none 0 0], true) ∧
      (messageLoop w fuel 0).1.countP Call.isGetMessage = n + 1 ∧
      (messageLoop w fuel 0).1.countP Call.isTranslateMessage = n ∧
      (messageLoop w fuel 0).1.countP Call.isDispatchMessage = n) ∧
    ((∀ j, j < fuel → (w.GetMessage j).1 ≠ 0) →
      messageLoop w fuel 0 = (pumped w 0 fuel, false)) :=
  messageLoop_shape w fuel

/-- C5 at concrete message sequences: two key messages and then the quit
message; the same sequence cut after two retrievals; and a failed retrieval
(result -1, which is not zero) followed by the quit message. -/
theorem messageLoop_exits_at_first_quit_witness :
    FirstQuit terminalWorld 2 ∧
    messageLoop terminalWorld 5 0 =
      ([Call.GetMessage none 0 0, Call.TranslateMessage (keyDown 65),
        Call.DispatchMessage (keyDown 65),
        Call.GetMessage none 0 0, Call.TranslateMessage (keyDown 66),
        Call.DispatchMessage (keyDown 66),
        Call.GetMessage none 0 0], true) ∧
    messageLoop terminalWorld 2 0 =
      ([Call.GetMessage none 0 0, Call.TranslateMessage (keyDown 65),
        Call.DispatchMessage (keyDown 65),
        Call.GetMessage none 0 0, Call.TranslateMessage (keyDown 66),
        Call.DispatchMessage (keyDown 66)], false) ∧
    messageLoop errorWorld 5 0 =
      ([Call.GetMessage none 0 0, Call.TranslateMessage (keyDown 0),
        Call.DispatchMessage (keyDown 0), Call.GetMessage none 0 0], true) :=
  ⟨⟨by decide, by decide⟩,
    ((messageLoop_exits_at_first_quit terminalWorld 5).1 2 ⟨by decide, by decide⟩
      (by decide)).1,
    (messageLoop_exits_at_first_quit terminalWorld 2).2 (by decide),
    ((messageLoop_exits_at_first_quit errorWorld 5).1 1 ⟨by decide, by decide⟩
      (by decide)).1⟩

/-- C6: `CoInitializeEx(nullptr, COINIT_APARTMENTTHREADED)` is called on
every run, exactly once, before the `FlutterWindow` is constructed and
before `window.Create` (each of which happens once); and on every run whose
window is created and whose message loop ends, `CoUninitialize` is called
exactly once, as the last call of all, right after the last `GetMessage`,
and the run then returns. -/
theorem wWinMain_com_bracket (k : Consts) (inst prev : Nat) (command_line : String)
    (show_command : Int) (w : World) (fuel : Nat) :
    ((∃ pre mid post, (wWinMain k inst prev command_line show_command w fuel).calls =
        pre ++ [Call.CoInitializeEx none k.COINIT_APARTMENTTHREADED] ++ mid ++
          [Call.FlutterWindow
              { path := "data", dart_entrypoint_arguments := w.GetCommandLineArguments },
            Call.Create "code_combiner" { x := 10, y := 10 } { width := 1280, height := 720 }] ++
          post) ∧
      (wWinMain k inst prev command_line show_command w fuel).calls.countP
        Call.isCoInitializeEx = 1 ∧
      (wWinMain k inst prev command_line show_command w fuel).calls.countP
        Call.isFlutterWindow = 1 ∧
      (wWinMain k inst prev command_line show_command w fuel).calls.countP
        Call.isCreate = 1) ∧
    (w.Create = true → ∀ n, FirstQuit w n → n < fuel →
      (∃ pre, (wWinMain k inst prev command_line show_command w fuel).calls =
        pre ++ [Call.GetMessage none 0 0, Call.CoUninitialize]) ∧
      (wWinMain k inst prev command_line show_command w fuel).calls.countP
        Call.isCoUninitialize = 1 ∧
      (wWinMain k inst prev command_line show_command w fuel).calls.countP
        Call.isGetMessage = n + 1 ∧
      (wWinMain k inst prev command_line show_command w fuel).exit = some k.EXIT_SUCCESS) := by
  have hcount : ∀ p : Call → Bool, (∀ c, c.isPump = true → p c = false) →
      (messageLoop w fuel 0).1.countP p = 0 := by
    intro p hp
    rw [List.countP_eq_length_filter, messageLoop_filter w fuel 0 p hp]
    rfl
  have h1 := hcount Call.isCoInitializeEx
    (by intro c; cases c <;> simp [Call.isPump, Call.isCoInitializeEx])
  have h2 := hcount Call.isFlutterWindow
    (by intro c; cases c <;> simp [Call.isPump, Call.isFlutterWindow])
  have h3 := hcount Call.isCreate
    (by intro c; cases c <;> simp [Call.isPump, Call.isCreate])
  have h4 := hcount Call.isCoUninitialize
    (by intro c; cases c <;> simp [Call.isPump, Call.isCoUninitialize])
  refine ⟨⟨?_, ?_, ?_, ?_⟩, ?_⟩
  · unfold wWinMain
    refine ⟨[Call.bitsdojo_window_configure (k.BDW_CUSTOM_FRAME ||| k.BDW_HIDE_ON_STARTUP),
        Call.AttachConsole k.ATTACH_PARENT_PROCESS] ++
        (if w.AttachConsole = 0 then
          (if w.IsDebuggerPresent ≠ 0 then [Call.IsDebuggerPresent, Call.CreateAndAttachConsole]
            else [Call.IsDebuggerPresent])
          else []),
      [Call.DartProject "data", Call.GetCommandLineArguments,
        Call.set_dart_entrypoint_arguments w.GetCommandLineArguments],
      (if w.Create then
        Call.SetQuitOnClose true :: (messageLoop w fuel 0).1 ++
          (if (messageLoop w fuel 0).2 then [Call.CoUninitialize] else [])
        else []), ?_⟩
    by_cases ha : w.AttachConsole = 0 <;> by_cases hd : w.IsDebuggerPresent = 0 <;>
      cases hc : w.Create <;> cases hb : (messageLoop w fuel 0).2 <;>
      simp [ha, hd, hc, hb]
  · unfold wWinMain
    by_cases ha : w.AttachConsole = 0 <;> by_cases hd : w.IsDebuggerPresent = 0 <;>
      cases hc : w.Create <;> cases hb : (messageLoop w fuel 0).2 <;>
      simp only [ha, hd, hc, hb, ↓reduceIte, List.countP_append, h1, ne_eq,
        not_true_eq_false, not_false_eq_true, Bool.not_true, Bool.not_false,
        Bool.false_eq_true] <;>
      simp [List.countP_cons, Call.isCoInitializeEx]
  · unfold wWinMain
    by_cases ha : w.AttachConsole = 0 <;> by_cases hd : w.IsDebuggerPresent = 0 <;>
      cases hc : w.Create <;> cases hb : (messageLoop w fuel 0).2 <;>
      simp only [ha, hd, hc, hb, ↓reduceIte, List.countP_append, h2, ne_eq,
        not_true_eq_false, not_false_eq_true, Bool.not_true, Bool.not_false,
        Bool.false_eq_true] <;>
      simp [List.countP_cons, Call.isFlutterWindow]
  · unfold wWinMain
    by_cases ha : w.AttachConsole = 0 <;> by_cases hd : w.IsDebuggerPresent = 0 <;>
      cases hc : w.Create <;> cases hb : (messageLoop w fuel 0).2 <;>
      simp only [ha, hd, hc, hb, ↓reduceIte, List.countP_append, h3, ne_eq,
        not_true_eq_false, not_false_eq_true, Bool.not_true, Bool.not_false,
        Bool.false_eq_true] <;>
      simp [List.countP_cons, Call.isCreate]
  · intro hc n hq hfuel
    have heq := messageLoop_ends w n fuel 0 (by simpa using hq.1)
      (fun j hj => by simpa using hq.2 j hj) hfuel
    have hb : (messageLoop w fuel 0).2 = true := by rw [heq]
    have hg := ((messageLoop_shape w fuel).1 n hq hfuel).2.1
    refine ⟨?_, ?_, ?_, ?_⟩
    · unfold wWinMain
      have hcalls : (messageLoop w fuel 0).1 = pumped w 0 n ++ [Call.GetMessage none 0 0] := by
        rw [heq]
      have key : ∀ t p : List Call, ∃ pre, t ++ (p ++ [Call.GetMessage none 0 0]) ++
          [Call.CoUninitialize] = pre ++ [Call.GetMessage none 0 0, Call.CoUninitialize] :=
        fun t p => ⟨t ++ p, by simp⟩
      simp only [hc, hb, ↓reduceIte, Bool.not_true, Bool.false_eq_true, hcalls]
      exact key _ _
    · unfold wWinMain
      by_cases ha : w.AttachConsole = 0 <;> by_cases hd : w.IsDebuggerPresent = 0 <;>
        simp only [ha, hd, hc, hb, ↓reduceIte, List.countP_append, h4, ne_eq,
          not_true_eq_false, not_false_eq_true, Bool.not_true, Bool.not_false,
          Bool.false_eq_true] <;>
        simp [List.countP_cons, Call.isCoUninitialize]
    · unfold wWinMain
      by_cases ha : w.AttachConsole = 0 <;> by_cases hd : w.IsDebuggerPresent = 0 <;>
        simp only [ha, hd, hc, hb, ↓reduceIte, List.countP_append, hg, ne_eq,
          not_true_eq_false, not_false_eq_true, Bool.not_true, Bool.not_false,
          Bool.false_eq_true] <;>
        simp [List.countP_cons, Call.isGetMessage]
    · simp [wWinMain, hc, hb]

/-- C6 at a concrete run from a terminal that ends at its third retrieval. -/
theorem wWinMain_com_bracket_witness :
    (wWinMain sdkConsts 0 0 "" 1 terminalWorld 5).calls.countP Call.isCoInitializeEx = 1 ∧
    (wWinMain sdkConsts 0 0 "" 1 terminalWorld 5).calls.countP Call.isCoUninitialize = 1 ∧
    (wWinMain sdkConsts 0 0 "" 1 terminalWorld 5).calls.countP Call.isGetMessage = 3 ∧
    (wWinMain sdkConsts 0 0 "" 1 terminalWorld 5).exit = some 0 :=
  ⟨(wWinMain_com_bracket sdkConsts 0 0 "" 1 terminalWorld 5).1.2.1,
    ((wWinMain_com_bracket sdkConsts 0 0 "" 1 terminalWorld 5).2 rfl 2
      ⟨by decide, by decide⟩ (by decide)).2.1,
    ((wWinMain_com_bracket sdkConsts 0 0 "" 1 terminalWorld 5).2 rfl 2
      ⟨by decide, by decide⟩ (by decide)).2.2.1,
    ((wWinMain_com_bracket sdkConsts 0 0 "" 1 terminalWorld 5).2 rfl 2
      ⟨by decide, by decide⟩ (by decide)).2.2.2⟩

/-- C7: the console policy.  `CreateAndAttachConsole` is called if and only
if `AttachConsole(ATTACH_PARENT_PROCESS)` returned zero and
`IsDebuggerPresent` returned non-zero, and never more than once; when
`AttachConsole` succeeds neither `CreateAndAttachConsole` nor
`IsDebuggerPresent` is called; the debugger is queried exactly when
`AttachConsole` failed; and `AttachConsole` itself is called once, on the
parent process. -/
theorem wWinMain_console_policy (k : Consts) (inst prev : Nat) (command_line : String)
    (show_command : Int) (w : World) (fuel : Nat) :
    (Call.CreateAndAttachConsole ∈ (wWinMain k inst prev command_line show_command w fuel).calls ↔
      w.AttachConsole = 0 ∧ w.IsDebuggerPresent ≠ 0) ∧
    (wWinMain k inst prev command_line show_command w fuel).calls.count
      Call.CreateAndAttachConsole ≤ 1 ∧
    (w.AttachConsole ≠ 0 →
      Call.CreateAndAttachConsole ∉ (wWinMain k inst prev command_line show_command w fuel).calls ∧
      Call.IsDebuggerPresent ∉ (wWinMain k inst prev command_line show_command w fuel).calls) ∧
    (Call.IsDebuggerPresent ∈ (wWinMain k inst prev command_line show_command w fuel).calls ↔
      w.AttachConsole = 0) ∧
    (wWinMain k inst prev command_line show_command w fuel).calls.filter Call.isAttachConsole =
      [Call.AttachConsole k.ATTACH_PARENT_PROCESS] := by
  have hm1 : Call.CreateAndAttachConsole ∉ (messageLoop w fuel 0).1 :=
    messageLoop_not_mem w fuel 0 _ rfl
  have hm2 : Call.IsDebuggerPresent ∉ (messageLoop w fuel 0).1 :=
    messageLoop_not_mem w fuel 0 _ rfl
  have hcnt : (messageLoop w fuel 0).1.count Call.CreateAndAttachConsole = 0 :=
    List.count_eq_zero_of_not_mem hm1
  have hl := messageLoop_filter w fuel 0 Call.isAttachConsole
    (by intro c; cases c <;> simp [Call.isPump, Call.isAttachConsole])
  unfold wWinMain
  by_cases ha : w.AttachConsole = 0 <;> by_cases hd : w.IsDebuggerPresent = 0 <;>
    cases hc : w.Create <;> cases hb : (messageLoop w fuel 0).2 <;>
    simp only [ha, hd, hc, hb, ↓reduceIte, List.filter_append, List.count_append, hl, hcnt,
      List.append_nil, ne_eq, not_true_eq_false, not_false_eq_true, Bool.not_true,
      Bool.not_false, Bool.false_eq_true, List.mem_append, hm1, hm2, or_false] <;>
    simp [List.filter, Call.isAttachConsole, List.count_cons]

/-- C8: the results of the best-effort calls do not matter.  Two runs that
agree on the list `GetCommandLineArguments` returns, on the result of
`window.Create` and on the results of `GetMessage` have the same exit code
and the same calls from `CoInitializeEx` on, whatever
`bitsdojo_window_configure`, `AttachConsole`, `IsDebuggerPresent`,
`CreateAndAttachConsole` and `CoInitializeEx` return in each (and whatever
the entry-point parameters are). -/
theorem wWinMain_best_effort_independent (k : Consts) (inst1 prev1 inst2 prev2 : Nat)
    (command_line1 command_line2 : String) (show_command1 show_command2 : Int)
    (w1 w2 : World) (fuel : Nat)
    (hargs : w1.GetCommandLineArguments = w2.GetCommandLineArguments)
    (hcreate : w1.Create = w2.Create)
    (hmsg : ∀ i, w1.GetMessage i = w2.GetMessage i) :
    (wWinMain k inst1 prev1 command_line1 show_command1 w1 fuel).exit =
      (wWinMain k inst2 prev2 command_line2 show_command2 w2 fuel).exit ∧
    (wWinMain k inst1 prev1 command_line1 show_command1 w1 fuel).calls.dropWhile
        (fun c => !c.isCoInitializeEx) =
      (wWinMain k inst2 prev2 command_line2 show_command2 w2 fuel).calls.dropWhile
        (fun c => !c.isCoInitializeEx) ∧
    ((wWinMain k inst1 prev1 command_line1 show_command1 w1 fuel).calls.dropWhile
        (fun c => !c.isCoInitializeEx)).head? =
      some (Call.CoInitializeEx none k.COINIT_APARTMENTTHREADED) := by
  have hloop := messageLoop_congr w1 w2 hmsg fuel 0
  unfold wWinMain
  by_cases ha1 : w1.AttachConsole = 0 <;> by_cases hd1 : w1.IsDebuggerPresent = 0 <;>
    by_cases ha2 : w2.AttachConsole = 0 <;> by_cases hd2 : w2.IsDebuggerPresent = 0 <;>
    cases hc : w2.Create <;> cases hb : (messageLoop w2 fuel 0).2 <;>
    simp [ha1, hd1, ha2, hd2, hcreate, hargs, hloop, hc, hb, List.dropWhile,
      Call.isCoInitializeEx]

/-- C8 at two concrete runs: one from a terminal, one under a debugger in
which every best-effort call fails. -/
theorem wWinMain_best_effort_independent_witness :
    terminalWorld.GetCommandLineArguments = debuggerWorld.GetCommandLineArguments ∧
    terminalWorld.Create = debuggerWorld.Create ∧
    (∀ i, terminalWorld.GetMessage i = debuggerWorld.GetMessage i) ∧
    terminalWorld.AttachConsole ≠ debuggerWorld.AttachConsole ∧
    terminalWorld.CoInitializeEx ≠ debuggerWorld.CoInitializeEx ∧
    (wWinMain sdkConsts 0 0 "" 1 terminalWorld 5).exit =
      (wWinMain sdkConsts 4194304 0 "--help" 10 debuggerWorld 5).exit ∧
    (wWinMain sdkConsts 0 0 "" 1 terminalWorld 5).calls.dropWhile
        (fun c => !c.isCoInitializeEx) =
      (wWinMain sdkConsts 4194304 0 "--help" 10 debuggerWorld 5).calls.dropWhile
        (fun c => !c.isCoInitializeEx) :=
  ⟨rfl, rfl, fun _ => rfl, by decide, by decide,
    (wWinMain_best_effort_independent sdkConsts 0 0 4194304 0 "" "--help" 1 10
      terminalWorld debuggerWorld 5 rfl rfl (fun _ => rfl)).1,
    (wWinMain_best_effort_independent sdkConsts 0 0 4194304 0 "" "--help" 1 10
      terminalWorld debuggerWorld 5 rfl rfl (fun _ => rfl)).2.1⟩

/-- C9: control flows linearly.  On a run whose window is created and whose
message loop ends at retrieval number `n`, the external calls are exactly,
in this order: `bitsdojo_window_configure` with
`BDW_CUSTOM_FRAME | BDW_HIDE_ON_STARTUP`; the console step (`AttachConsole`,
then `IsDebuggerPresent` if that failed, then `CreateAndAttachConsole` if a
debugger is present); `CoInitializeEx`; the construction of the `DartProject`
on "data", `GetCommandLineArguments` and `set_dart_entrypoint_arguments`;
the construction of the `FlutterWindow` and `window.Create`;
`window.SetQuitOnClose(true)`; the `n` rounds of the message loop and the
last `GetMessage`; `CoUninitialize`; and the run returns `EXIT_SUCCESS`.
`bitsdojo_window_configure` is the first call and is made once;
`SetQuitOnClose` is called once, with `true`. -/
theorem wWinMain_linear (k : Consts) (inst prev : Nat) (command_line : String)
    (show_command : Int) (w : World) (fuel n : Nat)
    (hcreate : w.Create = true) (hquit : FirstQuit w n) (hfuel : n < fuel) :
    (wWinMain k inst prev command_line show_command w fuel).calls =
      [Call.bitsdojo_window_configure (k.BDW_CUSTOM_FRAME ||| k.BDW_HIDE_ON_STARTUP),
        Call.AttachConsole k.ATTACH_PARENT_PROCESS] ++
      (if w.AttachConsole ≠ 0 then []
        else if w.IsDebuggerPresent = 0 then [Call.IsDebuggerPresent]
        else [Call.IsDebuggerPresent, Call.CreateAndAttachConsole]) ++
      [Call.CoInitializeEx none k.COINIT_APARTMENTTHREADED,
        Call.DartProject "data",
        Call.GetCommandLineArguments,
        Call.set_dart_entrypoint_arguments w.GetCommandLineArguments,
        Call.FlutterWindow
          { path := "data", dart_entrypoint_arguments := w.GetCommandLineArguments },
        Call.Create "code_combiner" { x := 10, y := 10 } { width := 1280, height := 720 },
        Call.SetQuitOnClose true] ++
      pumped w 0 n ++
      [Call.GetMessage none 0 0, Call.CoUninitialize] ∧
    (wWinMain k inst prev command_line show_command w fuel).exit = some k.EXIT_SUCCESS ∧
    (wWinMain k inst prev command_line show_command w fuel).calls.head? =
      some (Call.bitsdojo_window_configure (k.BDW_CUSTOM_FRAME ||| k.BDW_HIDE_ON_STARTUP)) ∧
    (wWinMain k inst prev command_line show_command w fuel).calls.filter Call.isConfigure =
      [Call.bitsdojo_window_configure (k.BDW_CUSTOM_FRAME ||| k.BDW_HIDE_ON_STARTUP)] ∧
    (wWinMain k inst prev command_line show_command w fuel).calls.filter Call.isSetQuitOnClose =
      [Call.SetQuitOnClose true] := by
  have heq := messageLoop_ends w n fuel 0 (by simpa using hquit.1)
    (fun j hj => by simpa using hquit.2 j hj) hfuel
  have hb : (messageLoop w fuel 0).2 = true := by rw [heq]
  have hl1 := messageLoop_filter w fuel 0 Call.isConfigure
    (by intro c; cases c <;> simp [Call.isPump, Call.isConfigure])
  have hl2 := messageLoop_filter w fuel 0 Call.isSetQuitOnClose
    (by intro c; cases c <;> simp [Call.isPump, Call.isSetQuitOnClose])
  refine ⟨?_, ?_, ?_, ?_, ?_⟩
  · have hcalls : (messageLoop w fuel 0).1 = pumped w 0 n ++ [Call.GetMessage none 0 0] := by
      rw [heq]
    unfold wWinMain
    by_cases ha : w.AttachConsole = 0 <;> by_cases hd : w.IsDebuggerPresent = 0 <;>
      simp [ha, hd, hcreate, hb, hcalls]
  · simp [wWinMain, hcreate, hb]
  · unfold wWinMain
    by_cases ha : w.AttachConsole = 0 <;> by_cases hd : w.IsDebuggerPresent = 0 <;>
      simp [ha, hd, hcreate, hb]
  · unfold wWinMain
    by_cases ha : w.AttachConsole = 0 <;> by_cases hd : w.IsDebuggerPresent = 0 <;>
      simp only [ha, hd, hcreate, hb, ↓reduceIte, List.filter_append, hl1, List.append_nil,
        ne_eq, not_true_eq_false, not_false_eq_true, Bool.not_true, Bool.not_false,
        Bool.false_eq_true] <;>
      simp [List.filter, Call.isConfigure]
  · unfold wWinMain
    by_cases ha : w.AttachConsole = 0 <;> by_cases hd : w.IsDebuggerPresent = 0 <;>
      simp only [ha, hd, hcreate, hb, ↓reduceIte, List.filter_append, hl2, List.append_nil,
        ne_eq, not_true_eq_false, not_false_eq_true, Bool.not_true, Bool.not_false,
        Bool.false_eq_true] <;>
      simp [List.filter, Call.isSetQuitOnClose]

/-- C9 at a concrete run from a terminal: two key messages, then the quit
message. -/
theorem wWinMain_linear_witness :
    terminalWorld.Create = true ∧ FirstQuit terminalWorld 2 ∧
    (wWinMain sdkConsts 0 0 "" 1 terminalWorld 5).calls =
      [Call.bitsdojo_window_configure 3,
        Call.AttachConsole 0xFFFFFFFF,
        Call.CoInitializeEx none 2,
        Call.DartProject "data",
        Call.GetCommandLineArguments,
        Call.set_dart_entrypoint_arguments ["--verbose", "a.txt"],
        Call.FlutterWindow
          { path := "data", dart_entrypoint_arguments := ["--verbose", "a.txt"] },
        Call.Create "code_combiner" { x := 10, y := 10 } { width := 1280, height := 720 },
        Call.SetQuitOnClose true,
        Call.GetMessage none 0 0, Call.TranslateMessage (keyDown 65),
        Call.DispatchMessage (keyDown 65),
        Call.GetMessage none 0 0, Call.TranslateMessage (keyDown 66),
        Call.DispatchMessage (keyDown 66),
        Call.GetMessage none 0 0, Call.CoUninitialize] :=
  ⟨rfl, ⟨by decide, by decide⟩,
    (wWinMain_linear sdkConsts 0 0 "" 1 terminalWorld 5 2 rfl ⟨by decide, by decide⟩
      (by decide)).1⟩

/-- C10: the window-creation-failure path leaves COM initialised.  On a run
whose `window.Create` returns false, `CoInitializeEx` is called once and
`CoUninitialize` never; and on any run the number of `CoUninitialize` calls
equals the number of `CoInitializeEx` calls if and only if `window.Create`
returned true and the message loop has ended. -/
theorem wWinMain_com_balance (k : Consts) (inst prev : Nat) (command_line : String)
    (show_command : Int) (w : World) (fuel : Nat) :
    (w.Create = false →
      (wWinMain k inst prev command_line show_command w fuel).calls.countP
        Call.isCoInitializeEx = 1 ∧
      (wWinMain k inst prev command_line show_command w fuel).calls.countP
        Call.isCoUninitialize = 0) ∧
    ((wWinMain k inst prev command_line show_command w fuel).calls.countP Call.isCoUninitialize =
        (wWinMain k inst prev command_line show_command w fuel).calls.countP
          Call.isCoInitializeEx ↔
      w.Create = true ∧ ∃ j, j < fuel ∧ (w.GetMessage j).1 = 0) := by
  have hdone := messageLoop_done_iff w fuel
  have hcount : ∀ p : Call → Bool, (∀ c, c.isPump = true → p c = false) →
      (messageLoop w fuel 0).1.countP p = 0 := by
    intro p hp
    rw [List.countP_eq_length_filter, messageLoop_filter w fuel 0 p hp]
    rfl
  have h1 := hcount Call.isCoInitializeEx
    (by intro c; cases c <;> simp [Call.isPump, Call.isCoInitializeEx])
  have h4 := hcount Call.isCoUninitialize
    (by intro c; cases c <;> simp [Call.isPump, Call.isCoUninitialize])
  rw [← hdone]
  unfold wWinMain
  by_cases ha : w.AttachConsole = 0 <;> by_cases hd : w.IsDebuggerPresent = 0 <;>
    cases hc : w.Create <;> cases hb : (messageLoop w fuel 0).2 <;>
    simp only [ha, hd, hc, hb, ↓reduceIte, List.countP_append, h1, h4, ne_eq,
      not_true_eq_false, not_false_eq_true, Bool.not_true, Bool.not_false,
      Bool.false_eq_true] <;>
    simp [List.countP_cons, Call.isCoInitializeEx, Call.isCoUninitialize]

/-- C10 at a concrete run whose window cannot be created. -/
theorem wWinMain_com_balance_witness :
    noWindowWorld.Create = false ∧
    (wWinMain sdkConsts 0 0 "" 1 noWindowWorld 5).calls.countP Call.isCoInitializeEx = 1 ∧
    (wWinMain sdkConsts 0 0 "" 1 noWindowWorld 5).calls.countP Call.isCoUninitialize = 0 :=
  ⟨rfl, (wWinMain_com_balance sdkConsts 0 0 "" 1 noWindowWorld 5).1 rfl⟩

end CodeCombiner
